import Mathlib

/-!
Shallow embedding of the GRIB2 decode pipeline of knowell41/radar-data-viz.

The embedded code is `SimpleGribProcessor` from `src/app/utils/gribProcessor.ts`
(the variant that really parses GRIB2 sections; called the primary variant
below) together with the sibling variant in `src/unnamed/part_002`.

Modelling conventions:
* A JS `ArrayBuffer` + `DataView` is a `Buffer`: a length and a byte function.
  All `DataView` reads are bounds checked and return `Option`; `none` stands
  for the `RangeError` the JS `DataView` throws on an out-of-range read.
* JS numbers are idealised as exact rationals (`ℚ`); integer quantities use
  `ℕ`/`ℤ` with explicit signed conversion for `getInt32`.
* `Math.random`, `Math.cos`, `Math.sin` and the external `pako.inflate` are
  oracle parameters collected in a `JsEnv`; `ValidEnv` records the ranges
  JS guarantees (`Math.random ∈ [0,1)`, `|cos| ≤ 1`, `|sin| ≤ 1`).
* The `while` loops of the section walk are embedded with explicit fuel.
  `POut.diverge` means the fuel ran out; a loop whose state is stationary
  diverges for every fuel, which models a JS infinite loop.
* `console.*` calls are effect free and are omitted.
-/

/-- A raw byte buffer: a length together with the byte at each index.
Bytes outside `[0, len)` are never read by the embedded code. -/
structure Buffer where
  len : ℕ
  byte : ℕ → ℕ

/-- `DataView.getUint8` with the bounds check JS performs. -/
def getUint8 (b : Buffer) (off : ℕ) : Option ℕ :=
  if off < b.len then some (b.byte off) else none

/-- `DataView.getUint16(off, false)`: big-endian, bounds checked. -/
def getUint16 (b : Buffer) (off : ℕ) : Option ℕ :=
  if off + 2 ≤ b.len then some (256 * b.byte off + b.byte (off + 1)) else none

/-- `DataView.getUint32(off)`: big-endian, bounds checked. -/
def getUint32 (b : Buffer) (off : ℕ) : Option ℕ :=
  if off + 4 ≤ b.len then
    some (16777216 * b.byte off + 65536 * b.byte (off + 1) +
          256 * b.byte (off + 2) + b.byte (off + 3))
  else none

/-- `DataView.getInt32(off)`: big-endian signed (two-complement), bounds checked. -/
def getInt32 (b : Buffer) (off : ℕ) : Option ℤ :=
  (getUint32 b off).map fun v =>
    if v < 2147483648 then (v : ℤ) else (v : ℤ) - 4294967296

/-- `interface RadarDataPoint` of `gribProcessor.ts`. -/
structure RadarDataPoint where
  lat : ℚ
  lng : ℚ
  value : ℚ
deriving DecidableEq, Repr

/-- `interface GribHeader` of `gribProcessor.ts` (the optional string fields
are irrelevant to the arithmetic and omitted). -/
structure GribHeader where
  nx : ℕ
  ny : ℕ
  la1 : ℤ
  lo1 : ℤ
  la2 : ℤ
  lo2 : ℤ
deriving DecidableEq, Repr

/-- `interface GribData`: a header plus the flat sample list. `none` models a
`null`/`undefined`/`NaN` entry of the JS `number[]`. -/
structure GribData where
  header : GribHeader
  data : List (Option ℚ)

/-- The MRMS reflectivity scaling applied to one raw 16-bit code
(`gribProcessor.ts`, the three-branch `dbzValue` computation). -/
def rawToDbz (raw : ℕ) : ℚ :=
  if raw > 32000 then ((raw : ℚ) - 65535) / 100
  else if raw > 3200 then (raw : ℚ) / 100 - 32
  else (raw : ℚ) / 100

/-- `Math.abs`, written so that it evaluates by kernel reduction. -/
def mathAbs (q : ℚ) : ℚ := if q < 0 then -q else q

/-- `Math.min` on the integer quantities of the data-section header. -/
def jsMinI (a b : ℤ) : ℤ := if a ≤ b then a else b

/-- `Math.max` on the stride computations. -/
def jsMaxN (a b : ℕ) : ℕ := if a ≤ b then b else a

/-- Grid parameters read from the grid-definition section (section 3,
template 0) by the primary variant. -/
structure Grid where
  ni : ℕ
  nj : ℕ
  la1 : ℚ
  lo1 : ℚ
  la2 : ℚ
  lo2 : ℚ
  di : ℚ
  dj : ℚ
deriving DecidableEq, Repr

/-- Latitude of a grid row in the primary variant: `la1 - row * |dj|` when the
grid runs north to south (`la1 > la2`), `la1 + row * |dj|` otherwise. -/
def computeLat (g : Grid) (row : ℕ) : ℚ :=
  if g.la1 > g.la2 then g.la1 - row * mathAbs g.dj
  else g.la1 + row * mathAbs g.dj

/-- Longitude of a grid column before normalisation: `lo1 + col * di`. -/
def computeLngRaw (g : Grid) (col : ℕ) : ℚ :=
  g.lo1 + col * g.di

/-- The 0–360° to −180/+180° longitude normalisation: subtract 360 from any
value above 180, once. -/
def normalizeLng (lng : ℚ) : ℚ :=
  if lng > 180 then lng - 360 else lng

/-- The North America acceptance box of the primary variant:
`lat >= 15 && lat <= 70 && lng >= -170 && lng <= -50`. -/
def inNorthAmericaBox (lat lng : ℚ) : Prop :=
  15 ≤ lat ∧ lat ≤ 70 ∧ -170 ≤ lng ∧ lng ≤ -50

instance (lat lng : ℚ) : Decidable (inNorthAmericaBox lat lng) := by
  unfold inNorthAmericaBox; infer_instance

/-- Index list of a JS loop `for (k = 0; k < n; k += step)` with `step ≥ 1`:
the multiples of `step` below `n`. -/
def stepRange (n step : ℕ) : List ℕ :=
  (List.range n).filter fun k => k % step = 0

/-- Outcome of `parseGrib2Data`: a returned point list, a thrown error, or
fuel exhaustion (the embedded image of a JS infinite loop). -/
inductive POut where
  | ok (pts : List RadarDataPoint)
  | fail (rangeError : Bool)
  | diverge
deriving DecidableEq, Repr

/-- The point list of an `ok` outcome, `[]` otherwise. -/
def POut.points : POut → List RadarDataPoint
  | .ok pts => pts
  | _ => []

/-- One grid cell of the data loop of the primary variant: read the 16-bit code at
`dataStartOffset + i * 2`, skip missing codes and implausible dBZ values,
map to coordinates, and keep the point only inside the North America box.
`none` covers `continue` and the `try/catch { continue }` around the read.
The `Bool` is the `isSignificant` flag (`dbzValue >= -5`). -/
def emitAt (b : Buffer) (g : Grid) (dataStart : ℕ) (row col : ℕ) :
    Option (RadarDataPoint × Bool) :=
  match getUint16 b (dataStart + (row * g.ni + col) * 2) with
  | none => none
  | some raw =>
    if raw = 0 ∨ raw = 65535 ∨ raw = 32767 then none
    else
      let dbzValue := rawToDbz raw
      if dbzValue < -30 ∨ dbzValue > 100 then none
      else
        let lat := computeLat g row
        let lng := normalizeLng (computeLngRaw g col)
        if inNorthAmericaBox lat lng then
          some (⟨lat, lng, dbzValue⟩, decide (dbzValue ≥ -5))
        else none

/-- The inner `for (col ...)` loop of the primary variant over a prepared
column index list; `i >= valuesToRead` breaks out of the column loop. -/
def colLoop (b : Buffer) (g : Grid) (dataStart : ℕ) (valuesToRead : ℤ)
    (row : ℕ) : List ℕ → List (RadarDataPoint × Bool)
  | [] => []
  | col :: rest =>
    if valuesToRead ≤ (row * g.ni + col : ℕ) then []
    else
      match emitAt b g dataStart row col with
      | some pb => pb :: colLoop b g dataStart valuesToRead row rest
      | none => colLoop b g dataStart valuesToRead row rest

/-- Processing of a found data section (section 7) in the primary variant:
compute `valuesToRead` and the sampling strides, run the row/column loops,
and return the significant points followed by the background points. -/
def readDataSection (b : Buffer) (g : Grid) (dataOffset dataSectionLength : ℕ) :
    List RadarDataPoint :=
  let dataStart := dataOffset + 5
  let numValues : ℤ := Int.fdiv ((dataSectionLength : ℤ) - 5) 2
  let valuesToRead : ℤ := jsMinI numValues ((g.ni : ℤ) * (g.nj : ℤ))
  let rowStep := jsMaxN 1 (g.nj / 1000)
  let colStep := jsMaxN 1 (g.ni / 1000)
  let pairs := (stepRange g.nj rowStep).flatMap fun row =>
    colLoop b g dataStart valuesToRead row (stepRange g.ni colStep)
  ((pairs.filter fun pb => pb.2).map fun pb => pb.1) ++
    ((pairs.filter fun pb => !pb.2).map fun pb => pb.1)

/-- The grid-definition reads of the primary variant (fixed offsets inside
section 3, template 0); any out-of-range read is a thrown `RangeError`. -/
def readGrid (b : Buffer) (off : ℕ) : Option Grid := do
  let ni ← getUint32 b (off + 30)
  let nj ← getUint32 b (off + 34)
  let la1 ← getInt32 b (off + 46)
  let lo1 ← getInt32 b (off + 50)
  let la2 ← getInt32 b (off + 55)
  let lo2 ← getInt32 b (off + 59)
  let di ← getUint32 b (off + 63)
  let dj ← getUint32 b (off + 67)
  pure ⟨ni, nj, (la1 : ℚ) / 1000000, (lo1 : ℚ) / 1000000,
        (la2 : ℚ) / 1000000, (lo2 : ℚ) / 1000000,
        (di : ℚ) / 1000000, (dj : ℚ) / 1000000⟩

/-- The inner `while (dataOffset < byteLength - 4)` walk searching for the
data section. `none` means the walk exhausted the buffer without finding
section 7 (control re-enters the outer walk); `some out` is a final outcome. -/
def innerLoop (b : Buffer) (g : Grid) : ℕ → ℕ → Option POut
  | 0, _ => some .diverge
  | fuel + 1, dataOffset =>
    if (dataOffset : ℤ) < (b.len : ℤ) - 4 then
      match getUint32 b dataOffset with
      | none => some (.fail true)
      | some dataSectionLength =>
        match getUint8 b (dataOffset + 4) with
        | none => some (.fail true)
        | some dataSectionNumber =>
          if dataSectionNumber = 7 then
            some (.ok (readDataSection b g dataOffset dataSectionLength))
          else innerLoop b g fuel (dataOffset + dataSectionLength)
    else none

/-- The outer `while (offset < byteLength - 4)` section walk of
`parseGrib2Data`. Finding section 3 with template 0 triggers the grid reads
and the inner walk; any other section, template, or an unfruitful inner walk
advances by the section length. Exhaustion throws the no-grid-data error. -/
def outerLoop (b : Buffer) : ℕ → ℕ → POut
  | 0, _ => .diverge
  | fuel + 1, off =>
    if (off : ℤ) < (b.len : ℤ) - 4 then
      match getUint32 b off with
      | none => .fail true
      | some sectionLength =>
        match getUint8 b (off + 4) with
        | none => .fail true
        | some sectionNumber =>
          if sectionNumber = 3 then
            match getUint16 b (off + 12) with
            | none => .fail true
            | some gridTemplate =>
              if gridTemplate = 0 then
                match readGrid b off with
                | none => .fail true
                | some g =>
                  match innerLoop b g fuel (off + sectionLength) with
                  | some out => out
                  | none => outerLoop b fuel (off + sectionLength)
              else outerLoop b fuel (off + sectionLength)
          else outerLoop b fuel (off + sectionLength)
    else .fail false

/-- `SimpleGribProcessor.parseGrib2Data` of the primary variant: the section
walk starting past the 16-byte indicator section. -/
def parseGrib2Data (b : Buffer) (fuel : ℕ) : POut :=
  outerLoop b fuel 16

/-- The double value of `Math.PI`. -/
def mathPi : ℚ := 884279719003555 / 281474976710656

/-- The ambient JS facilities the processor uses: `pako.inflate` (`none`
models a decompression exception) and `Math.cos`/`Math.sin`, plus one
`Math.random` stream per call site of `generateSampleData`, indexed by the
loop counters of that site. -/
structure JsEnv where
  inflate : Buffer → Option Buffer
  cos : ℚ → ℚ
  sin : ℚ → ℚ
  noiseR : ℕ → ℕ → ℕ → ℚ
  offLatR : ℕ → ℕ → ℕ → ℚ
  offLngR : ℕ → ℕ → ℕ → ℚ
  scatAngleR : ℕ → ℕ → ℚ
  scatDistR : ℕ → ℕ → ℚ
  scatIntR : ℕ → ℕ → ℚ
  bgLatR : ℕ → ℚ
  bgLngR : ℕ → ℚ
  bgValR : ℕ → ℚ

/-- The ranges JS guarantees for the oracle functions: every `Math.random`
result lies in `[0, 1)` and `Math.cos`/`Math.sin` are bounded by one. -/
structure ValidEnv (env : JsEnv) : Prop where
  cos_le : ∀ x, |env.cos x| ≤ 1
  sin_le : ∀ x, |env.sin x| ≤ 1
  noise_mem : ∀ s k i, 0 ≤ env.noiseR s k i ∧ env.noiseR s k i < 1
  offLat_mem : ∀ s k i, 0 ≤ env.offLatR s k i ∧ env.offLatR s k i < 1
  offLng_mem : ∀ s k i, 0 ≤ env.offLngR s k i ∧ env.offLngR s k i < 1
  scatAngle_mem : ∀ s i, 0 ≤ env.scatAngleR s i ∧ env.scatAngleR s i < 1
  scatDist_mem : ∀ s i, 0 ≤ env.scatDistR s i ∧ env.scatDistR s i < 1
  scatInt_mem : ∀ s i, 0 ≤ env.scatIntR s i ∧ env.scatIntR s i < 1
  bgLat_mem : ∀ i, 0 ≤ env.bgLatR i ∧ env.bgLatR i < 1
  bgLng_mem : ∀ i, 0 ≤ env.bgLngR i ∧ env.bgLngR i < 1
  bgVal_mem : ∀ i, 0 ≤ env.bgValR i ∧ env.bgValR i < 1

/-- One entry of the `stormSystems` table of `generateSampleData`. -/
structure Storm where
  centerLat : ℚ
  centerLng : ℚ
  intensity : ℚ
  size : ℚ
deriving DecidableEq, Repr

/-- The six hard-coded storm systems of `generateSampleData`. -/
def stormSystems : List Storm :=
  [⟨39, -95, 45, 3⟩, ⟨32, -85, 35, 5/2⟩, ⟨83/2, -175/2, 25, 2⟩,
   ⟨59/2, -95, 40, 14/5⟩, ⟨67/2, -112, 20, 3/2⟩, ⟨47, -122, 30, 11/5⟩]

/-- Iteration count of the spiral loop `for (r = 0; r <= size; r += 0.15)`:
the values `r = k * 0.15` for `k = 0 .. ⌊size / 0.15⌋`. -/
def rCount (size : ℚ) : ℕ :=
  (⌊size / (3/20)⌋).toNat + 1

/-- The spiral points pushed at one radius `r = k * 0.15` of one storm:
`numPoints` candidates, kept when `finalIntensity > 5`. -/
def spiralStep (env : JsEnv) (sIdx : ℕ) (s : Storm) (k : ℕ) :
    List RadarDataPoint :=
  let r : ℚ := k * (3/20)
  let numPoints := max 8 (⌊r * 12⌋).toNat
  (List.range numPoints).filterMap fun (i : ℕ) =>
    let angle := ((i : ℚ) / (numPoints : ℚ)) * 2 * mathPi + r * (1/2)
    let lat := s.centerLat + r * env.cos angle * (4/5)
    let lng := s.centerLng + r * env.sin angle
    let distanceFactor := max 0 (1 - r / s.size)
    let baseIntensity := s.intensity * distanceFactor
    let noise := (env.noiseR sIdx k i - 1/2) * 10
    let intensity := max 0 (baseIntensity + noise)
    let bandEffect := env.sin (r * 3) * 5
    let finalIntensity := max 0 (intensity + bandEffect)
    if finalIntensity > 5 then
      some ⟨lat + (env.offLatR sIdx k i - 1/2) * (1/10),
            lng + (env.offLngR sIdx k i - 1/2) * (1/10), finalIntensity⟩
    else none

/-- One of the 50 scattered light-precipitation points around a storm. -/
def scatterPoint (env : JsEnv) (sIdx : ℕ) (s : Storm) (i : ℕ) :
    RadarDataPoint :=
  let angle := env.scatAngleR sIdx i * 2 * mathPi
  let distance := s.size + env.scatDistR sIdx i * 2
  ⟨s.centerLat + distance * env.cos angle,
   s.centerLng + distance * env.sin angle,
   env.scatIntR sIdx i * 15 + 5⟩

/-- All points contributed by one storm: its spiral followed by its 50
unconditional scattered points. -/
def stormPoints (env : JsEnv) (sIdx : ℕ) (s : Storm) : List RadarDataPoint :=
  ((List.range (rCount s.size)).flatMap fun k => spiralStep env sIdx s k) ++
    (List.range 50).map fun i => scatterPoint env sIdx s i

/-- The 200-iteration random light-precipitation background field; a point is
kept when its value exceeds 8. -/
def backgroundPoints (env : JsEnv) : List RadarDataPoint :=
  (List.range 200).filterMap fun i =>
    let lat := 25 + env.bgLatR i * 25
    let lng := -125 + env.bgLngR i * 60
    let v := env.bgValR i * 20
    if v > 8 then some ⟨lat, lng, v⟩ else none

/-- `SimpleGribProcessor.generateSampleData`: the synthetic radar field used
whenever real decoding is impossible. -/
def generateSampleData (env : JsEnv) : List RadarDataPoint :=
  ((List.range stormSystems.length).flatMap fun sIdx =>
    stormPoints env sIdx (stormSystems.getD sIdx ⟨0, 0, 0, 0⟩)) ++
    backgroundPoints env

/-- `SimpleGribProcessor.isGzipFile`: a two-byte `0x1f 0x8b` magic prefix. -/
def isGzipFile (b : Buffer) : Prop :=
  2 ≤ b.len ∧ b.byte 0 = 31 ∧ b.byte 1 = 139

instance (b : Buffer) : Decidable (isGzipFile b) := by
  unfold isGzipFile; infer_instance

/-- The first four bytes decode to the ASCII string `"GRIB"` (a shorter
buffer decodes to a shorter string, which never equals `"GRIB"`). -/
def hasGribMagic (b : Buffer) : Prop :=
  4 ≤ b.len ∧ b.byte 0 = 71 ∧ b.byte 1 = 82 ∧ b.byte 2 = 73 ∧ b.byte 3 = 66

instance (b : Buffer) : Decidable (hasGribMagic b) := by
  unfold hasGribMagic; infer_instance

/-- The gzip unwrapping step at the top of `processGribBuffer`: inflate when
the gzip magic is present, otherwise pass the buffer through; `none` is a
decompression failure. -/
def unwrapGzip (env : JsEnv) (b : Buffer) : Option Buffer :=
  if isGzipFile b then env.inflate b else some b

/-- `SimpleGribProcessor.processGribBuffer`: unwrap gzip (falling back to the
sample data when decompression fails), check the `"GRIB"` magic (falling back
on mismatch), and run `parseGrib2Data`, converting every thrown error into
the sample data. `none` is the image of the JS call never returning. -/
def processGribBuffer (env : JsEnv) (b : Buffer) (fuel : ℕ) :
    Option (List RadarDataPoint) :=
  match unwrapGzip env b with
  | none => some (generateSampleData env)
  | some b2 =>
    if hasGribMagic b2 then
      match parseGrib2Data b2 fuel with
      | .ok pts => some pts
      | .fail _ => some (generateSampleData env)
      | .diverge => none
    else some (generateSampleData env)

/-- Grid parameters of the `src/unnamed/part_002` variant: the same reads
plus the scanning-mode flag byte at `offset + 71` (`0x80` = i direction,
`0x40` = j direction). -/
structure Grid2 where
  ni : ℕ
  nj : ℕ
  la1 : ℚ
  lo1 : ℚ
  la2 : ℚ
  lo2 : ℚ
  di : ℚ
  dj : ℚ
  iNegative : Bool
  jPositive : Bool
deriving DecidableEq, Repr

/-- Latitude in the part_002 variant: derived from the corner latitudes and
`nj`, following the scanning flag. -/
def computeLat2 (g : Grid2) (row : ℕ) : ℚ :=
  if g.jPositive then g.la1 + row * mathAbs ((g.la2 - g.la1) / ((g.nj : ℚ) - 1))
  else g.la1 - row * mathAbs ((g.la1 - g.la2) / ((g.nj : ℚ) - 1))

/-- Longitude in the part_002 variant before normalisation. -/
def computeLng2 (g : Grid2) (col : ℕ) : ℚ :=
  if g.iNegative then g.lo1 - col * mathAbs ((g.lo1 - g.lo2) / ((g.ni : ℚ) - 1))
  else g.lo1 + col * mathAbs ((g.lo2 - g.lo1) / ((g.ni : ℚ) - 1))

/-- One grid cell of the part_002 data loop: skip missing codes, convert, map
to coordinates — and keep the point with no value or coordinate filtering. -/
def emitAt2 (b : Buffer) (g : Grid2) (dataStart : ℕ) (row col : ℕ) :
    Option RadarDataPoint :=
  match getUint16 b (dataStart + (row * g.ni + col) * 2) with
  | none => none
  | some raw =>
    if raw = 0 ∨ raw = 65535 ∨ raw = 32767 then none
    else some ⟨computeLat2 g row, normalizeLng (computeLng2 g col), rawToDbz raw⟩

/-- The inner column loop of part_002, threading the shared `allDataPoints`
accumulator: breaks on `i >= valuesToRead` and after a push that reaches the
5000-point limit. -/
def colLoop2 (b : Buffer) (g : Grid2) (dataStart : ℕ) (valuesToRead : ℤ)
    (row : ℕ) : List ℕ → List RadarDataPoint → List RadarDataPoint
  | [], acc => acc
  | col :: rest, acc =>
    if valuesToRead ≤ (row * g.ni + col : ℕ) then acc
    else
      match emitAt2 b g dataStart row col with
      | none => colLoop2 b g dataStart valuesToRead row rest acc
      | some p =>
        let acc2 := acc ++ [p]
        if 5000 ≤ acc2.length then acc2
        else colLoop2 b g dataStart valuesToRead row rest acc2

/-- The outer row loop of part_002: runs the column loop on the shared
accumulator and breaks once 10000 points have been collected. -/
def rowLoop2 (b : Buffer) (g : Grid2) (dataStart : ℕ) (valuesToRead : ℤ)
    (cols : List ℕ) : List ℕ → List RadarDataPoint → List RadarDataPoint
  | [], acc => acc
  | row :: rest, acc =>
    let acc2 := colLoop2 b g dataStart valuesToRead row cols acc
    if 10000 ≤ acc2.length then acc2
    else rowLoop2 b g dataStart valuesToRead cols rest acc2

/-- Processing of a found data section in the part_002 variant: 200-way
sampling strides and the shared accumulator loops. -/
def readDataSection2 (b : Buffer) (g : Grid2) (dataOffset dataSectionLength : ℕ) :
    List RadarDataPoint :=
  let dataStart := dataOffset + 5
  let numValues : ℤ := Int.fdiv ((dataSectionLength : ℤ) - 5) 2
  let valuesToRead : ℤ := jsMinI numValues ((g.ni : ℤ) * (g.nj : ℤ))
  let sampleRowStep := jsMaxN 1 (g.nj / 200)
  let sampleColStep := jsMaxN 1 (g.ni / 200)
  rowLoop2 b g dataStart valuesToRead (stepRange g.ni sampleColStep)
    (stepRange g.nj sampleRowStep) []

/-- The grid-definition reads of the part_002 variant, including the
scanning-mode byte. -/
def readGrid2 (b : Buffer) (off : ℕ) : Option Grid2 := do
  let ni ← getUint32 b (off + 30)
  let nj ← getUint32 b (off + 34)
  let la1 ← getInt32 b (off + 46)
  let lo1 ← getInt32 b (off + 50)
  let la2 ← getInt32 b (off + 55)
  let lo2 ← getInt32 b (off + 59)
  let di ← getUint32 b (off + 63)
  let dj ← getUint32 b (off + 67)
  let scanningMode ← getUint8 b (off + 71)
  pure ⟨ni, nj, (la1 : ℚ) / 1000000, (lo1 : ℚ) / 1000000,
        (la2 : ℚ) / 1000000, (lo2 : ℚ) / 1000000,
        (di : ℚ) / 1000000, (dj : ℚ) / 1000000,
        decide (scanningMode / 128 % 2 = 1), decide (scanningMode / 64 % 2 = 1)⟩

/-- The inner data-section walk of the part_002 variant. -/
def innerLoop2 (b : Buffer) (g : Grid2) : ℕ → ℕ → Option POut
  | 0, _ => some .diverge
  | fuel + 1, dataOffset =>
    if (dataOffset : ℤ) < (b.len : ℤ) - 4 then
      match getUint32 b dataOffset with
      | none => some (.fail true)
      | some dataSectionLength =>
        match getUint8 b (dataOffset + 4) with
        | none => some (.fail true)
        | some dataSectionNumber =>
          if dataSectionNumber = 7 then
            some (.ok (readDataSection2 b g dataOffset dataSectionLength))
          else innerLoop2 b g fuel (dataOffset + dataSectionLength)
    else none

/-- The outer section walk of the part_002 variant. -/
def outerLoop2 (b : Buffer) : ℕ → ℕ → POut
  | 0, _ => .diverge
  | fuel + 1, off =>
    if (off : ℤ) < (b.len : ℤ) - 4 then
      match getUint32 b off with
      | none => .fail true
      | some sectionLength =>
        match getUint8 b (off + 4) with
        | none => .fail true
        | some sectionNumber =>
          if sectionNumber = 3 then
            match getUint16 b (off + 12) with
            | none => .fail true
            | some gridTemplate =>
              if gridTemplate = 0 then
                match readGrid2 b off with
                | none => .fail true
                | some g =>
                  match innerLoop2 b g fuel (off + sectionLength) with
                  | some out => out
                  | none => outerLoop2 b fuel (off + sectionLength)
              else outerLoop2 b fuel (off + sectionLength)
          else outerLoop2 b fuel (off + sectionLength)
    else .fail false

/-- `SimpleGribProcessor.parseGrib2Data` of the `src/unnamed/part_002`
variant. -/
def parseGrib2Data2 (b : Buffer) (fuel : ℕ) : POut :=
  outerLoop2 b fuel 16

/-- `SimpleGribProcessor.extractRadarDataPoints` (both variants declare the
same unused helper): rejects zero grid dimensions with a thrown error, else
maps every plausible sample of the flat list onto the interpolated lattice,
keeping only globally valid coordinates. -/
def extractRadarDataPoints (gribData : GribData) :
    Except String (List RadarDataPoint) :=
  let h := gribData.header
  if h.nx = 0 ∨ h.ny = 0 then .error "Invalid grid dimensions"
  else
    let lat1 : ℚ := (h.la1 : ℚ) / 1000000
    let lon1 : ℚ := (h.lo1 : ℚ) / 1000000
    let lat2 : ℚ := (h.la2 : ℚ) / 1000000
    let lon2 : ℚ := (h.lo2 : ℚ) / 1000000
    let latStep := (lat2 - lat1) / ((h.ny : ℚ) - 1)
    let lonStep := (lon2 - lon1) / ((h.nx : ℚ) - 1)
    .ok <| (List.range gribData.data.length).filterMap fun i =>
      match gribData.data.getD i none with
      | none => none
      | some value =>
        if value < -30 ∨ value > 80 then none
        else
          let row := i / h.nx
          let col := i % h.nx
          let lat := lat1 + row * latStep
          let lng := lon1 + col * lonStep
          if -90 ≤ lat ∧ lat ≤ 90 ∧ -180 ≤ lng ∧ lng ≤ 180 then
            some ⟨lat, lng, value⟩
          else none

/-- Big-endian byte `j` (0 = most significant) of a 32-bit value. -/
def be32 (v j : ℕ) : ℕ := v / 256 ^ (3 - j) % 256

/-- Bytes 0–87 of a well-formed test message: `"GRIB"`, a zero-padded
indicator section up to offset 16, then a 72-byte section 3 (template 0)
holding the given grid fields at the offsets `parseGrib2Data` reads, with a
zero scanning-mode byte. -/
def gribHeaderByte (ni nj la1 lo1 la2 lo2 di dj : ℕ) (i : ℕ) : ℕ :=
  if i = 0 then 71 else if i = 1 then 82
  else if i = 2 then 73 else if i = 3 then 66
  else if i < 16 then 0
  else if i < 20 then be32 72 (i - 16)
  else if i = 20 then 3
  else if i < 46 then 0
  else if i < 50 then be32 ni (i - 46)
  else if i < 54 then be32 nj (i - 50)
  else if i < 62 then 0
  else if i < 66 then be32 la1 (i - 62)
  else if i < 70 then be32 lo1 (i - 66)
  else if i = 70 then 0
  else if i < 75 then be32 la2 (i - 71)
  else if i < 79 then be32 lo2 (i - 75)
  else if i < 83 then be32 di (i - 79)
  else if i < 87 then be32 dj (i - 83)
  else 0

/-- A 100493-byte message: 251 × 200 lat/lon grid from (55°N, 230°E) with
0.01° increments, and a full data section in which every 16-bit sample is
the code 100 (1.0 dBZ). Every sampled cell passes every filter. -/
def bigBuf : Buffer :=
  ⟨100493, fun i =>
    if i < 88 then gribHeaderByte 251 200 55000000 230000000 53000000 232500000 10000 10000 i
    else if i < 92 then be32 100405 (i - 88)
    else if i = 92 then 7
    else if i % 2 = 0 then 100 else 0⟩

/-- A 93-byte message whose grid definition declares `ni = nj = 0` and whose
data section is empty. -/
def zeroDimBuf : Buffer :=
  ⟨93, fun i =>
    if i < 88 then gribHeaderByte 0 0 55000000 230000000 53000000 232500000 10000 10000 i
    else if i < 92 then be32 5 (i - 88)
    else if i = 92 then 7
    else 0⟩

/-- A 95-byte message with a 1 × 1 grid at (55°N, 230°E) and the single
sample code 100, decoding to exactly one point. -/
def goodBuf : Buffer :=
  ⟨95, fun i =>
    if i < 88 then gribHeaderByte 1 1 55000000 230000000 53000000 230000000 10000 10000 i
    else if i < 92 then be32 7 (i - 88)
    else if i = 92 then 7
    else if i = 93 then 0 else 100⟩

/-- A 21-byte message: `"GRIB"`, zero padding, then a section whose 4-byte
length field is 0 and whose section number is 0. The advance
`offset += sectionLength` of the walk never moves. -/
def hangBuf : Buffer :=
  ⟨21, fun i =>
    if i = 0 then 71 else if i = 1 then 82
    else if i = 2 then 73 else if i = 3 then 66
    else 0⟩

/-- A 21-byte message: `"GRIB"`, zero padding, then a section whose declared
length 1000 jumps far past the end of the buffer. -/
def overshootBuf : Buffer :=
  ⟨21, fun i =>
    if i = 0 then 71 else if i = 1 then 82
    else if i = 2 then 73 else if i = 3 then 66
    else if i < 16 then 0
    else if i < 20 then be32 1000 (i - 16)
    else 0⟩

/-- The 4-byte buffer `"NOPE"`: not gzipped and not GRIB. -/
def nopeBuf : Buffer :=
  ⟨4, fun i =>
    if i = 0 then 78 else if i = 1 then 79
    else if i = 2 then 80 else if i = 3 then 69 else 0⟩

/-- A 101-byte message for the part_002 variant: a 2 × 2 grid whose first
corner latitude is 100° (encodable, but not a valid Earth latitude), corner
longitudes 10°–11°, scanning mode 0, and four samples of code 100. -/
def ce6Buf : Buffer :=
  ⟨101, fun i =>
    if i < 88 then gribHeaderByte 2 2 100000000 10000000 99000000 11000000 1000000 1000000 i
    else if i < 92 then be32 13 (i - 88)
    else if i = 92 then 7
    else if i % 2 = 0 then 100 else 0⟩

/-- A concrete environment: decompression always fails, the trig oracles are
constantly zero, and every random draw is zero. -/
def env0 : JsEnv :=
  ⟨fun _ => none, fun _ => 0, fun _ => 0, fun _ _ _ => 0, fun _ _ _ => 0,
   fun _ _ _ => 0, fun _ _ => 0, fun _ _ => 0, fun _ _ => 0,
   fun _ => 0, fun _ => 0, fun _ => 0⟩

/-- The grid that `readGrid` extracts from `bigBuf`. -/
def gBig : Grid := ⟨251, 200, 55, 230, 53, 465/2, 1/100, 1/100⟩

/-- The grid that `readGrid` extracts from `goodBuf`. -/
def gGood : Grid := ⟨1, 1, 55, 230, 53, 230, 1/100, 1/100⟩

/-- A grid whose first latitude (80°) is globally valid but lies outside the
North America acceptance box. -/
def gHigh : Grid := ⟨1, 1, 80, 230, 53, 230, 1/100, 1/100⟩

/-- A part_002 grid used to evaluate `emitAt2` on a reserved code. -/
def g2res : Grid2 := ⟨1, 1, 0, 0, 0, 0, 0, 0, false, false⟩

/-- A two-byte buffer holding the single big-endian sample 32767. -/
def resBuf : Buffer := ⟨2, fun i => if i = 0 then 127 else 255⟩

theorem stepRange_one (n : ℕ) : stepRange n 1 = List.range n := by
  unfold stepRange
  exact List.filter_eq_self.mpr (by intro a _; simp [Nat.mod_one])

theorem mem_stepRange {n step k : ℕ} (h : k ∈ stepRange n step) : k < n := by
  unfold stepRange at h
  exact List.mem_range.mp (List.mem_filter.mp h).1


theorem length_significant_append_background
    (l : List (RadarDataPoint × Bool)) :
    (((l.filter fun pb => pb.2).map fun pb => pb.1) ++
      ((l.filter fun pb => !pb.2).map fun pb => pb.1)).length = l.length := by
  induction l with
  | nil => rfl
  | cons pb rest ih =>
    rcases pb with ⟨p, s⟩
    cases s
    all_goals simp_all [List.filter_cons]
    all_goals omega

theorem colLoop_length_of_forall_some (b : Buffer) (g : Grid) (ds : ℕ)
    (vtr : ℤ) (row : ℕ) (cols : List ℕ)
    (h : ∀ col ∈ cols, ((row * g.ni + col : ℕ) : ℤ) < vtr ∧
      (emitAt b g ds row col).isSome) :
    (colLoop b g ds vtr row cols).length = cols.length := by
  induction cols with
  | nil => rfl
  | cons c rest ih =>
    obtain ⟨hlt, hsome⟩ := h c (by simp)
    rw [colLoop, if_neg (by omega)]
    cases hemit : emitAt b g ds row c with
    | none => rw [hemit] at hsome; cases hsome
    | some pb =>
      simp only [List.length_cons]
      rw [ih fun col hc => h col (by simp [hc])]

theorem colLoop_mem (b : Buffer) (g : Grid) (ds : ℕ) (vtr : ℤ) (row : ℕ)
    (cols : List ℕ) (pb : RadarDataPoint × Bool)
    (h : pb ∈ colLoop b g ds vtr row cols) :
    ∃ col, emitAt b g ds row col = some pb := by
  induction cols with
  | nil => cases h
  | cons c rest ih =>
    rw [colLoop] at h
    split_ifs at h with hv
    · cases h
    · cases hemit : emitAt b g ds row c with
      | none => rw [hemit] at h; exact ih h
      | some pb2 =>
        rw [hemit] at h
        rcases List.mem_cons.mp h with h1 | h1
        · exact ⟨c, by rw [hemit, h1]⟩
        · exact ih h1

theorem emitAt_box (b : Buffer) (g : Grid) (ds : ℕ) (row col : ℕ)
    (p : RadarDataPoint) (s : Bool) (h : emitAt b g ds row col = some (p, s)) :
    inNorthAmericaBox p.lat p.lng := by
  unfold emitAt at h
  cases hr : getUint16 b (ds + (row * g.ni + col) * 2) with
  | none => rw [hr] at h; cases h
  | some raw =>
    rw [hr] at h
    dsimp only at h
    by_cases h1 : raw = 0 ∨ raw = 65535 ∨ raw = 32767
    · rw [if_pos h1] at h; cases h
    · rw [if_neg h1] at h
      by_cases h2 : rawToDbz raw < -30 ∨ rawToDbz raw > 100
      · rw [if_pos h2] at h; cases h
      · rw [if_neg h2] at h
        by_cases h3 : inNorthAmericaBox (computeLat g row)
            (normalizeLng (computeLngRaw g col))
        · rw [if_pos h3] at h
          injection h with h4
          injection h4 with h5 h6
          rw [show p = ⟨computeLat g row, normalizeLng (computeLngRaw g col),
            rawToDbz raw⟩ from h5.symm]
          exact h3
        · rw [if_neg h3] at h; cases h

theorem emitAt_none_of_not_box (b : Buffer) (g : Grid) (ds : ℕ) (row col : ℕ)
    (h : ¬ inNorthAmericaBox (computeLat g row)
      (normalizeLng (computeLngRaw g col))) :
    emitAt b g ds row col = none := by
  unfold emitAt
  cases hr : getUint16 b (ds + (row * g.ni + col) * 2) with
  | none => rfl
  | some raw =>
    dsimp only
    by_cases h1 : raw = 0 ∨ raw = 65535 ∨ raw = 32767
    · rw [if_pos h1]
    · rw [if_neg h1]
      by_cases h2 : rawToDbz raw < -30 ∨ rawToDbz raw > 100
      · rw [if_pos h2]
      · rw [if_neg h2, if_neg h]

theorem readDataSection_box (b : Buffer) (g : Grid) (dOff dsl : ℕ)
    (p : RadarDataPoint) (h : p ∈ readDataSection b g dOff dsl) :
    inNorthAmericaBox p.lat p.lng := by
  unfold readDataSection at h
  rcases List.mem_append.mp h with h1 | h1 <;>
  · obtain ⟨pb, hpb, hp⟩ := List.mem_map.mp h1
    obtain ⟨row, _, hcl⟩ := List.mem_flatMap.mp (List.mem_of_mem_filter hpb)
    obtain ⟨col, hemit⟩ := colLoop_mem _ _ _ _ _ _ _ hcl
    have hbox := emitAt_box _ _ _ _ _ pb.1 pb.2 (by rw [hemit])
    rwa [hp] at hbox

theorem innerLoop_ok (b : Buffer) (g : Grid) :
    ∀ (fuel dOff : ℕ) (pts : List RadarDataPoint),
    innerLoop b g fuel dOff = some (.ok pts) →
    ∃ o l, pts = readDataSection b g o l := by
  intro fuel
  induction fuel with
  | zero => intro dOff pts h; cases h
  | succ n ih =>
    intro dOff pts h
    rw [innerLoop] at h
    by_cases hc : (dOff : ℤ) < (b.len : ℤ) - 4
    · rw [if_pos hc] at h
      cases hr : getUint32 b dOff with
      | none => rw [hr] at h; cases h
      | some dsl =>
        rw [hr] at h
        dsimp only at h
        cases hr2 : getUint8 b (dOff + 4) with
        | none => rw [hr2] at h; cases h
        | some dsn =>
          rw [hr2] at h
          dsimp only at h
          by_cases h7 : dsn = 7
          · rw [if_pos h7] at h
            injection h with h4
            injection h4 with h5
            exact ⟨dOff, dsl, h5.symm⟩
          · rw [if_neg h7] at h
            exact ih _ _ h
    · rw [if_neg hc] at h; cases h

theorem outerLoop_ok (b : Buffer) :
    ∀ (fuel off : ℕ) (pts : List RadarDataPoint),
    outerLoop b fuel off = .ok pts →
    ∃ g o l, pts = readDataSection b g o l := by
  intro fuel
  induction fuel with
  | zero => intro off pts h; cases h
  | succ n ih =>
    intro off pts h
    rw [outerLoop] at h
    by_cases hc : (off : ℤ) < (b.len : ℤ) - 4
    · rw [if_pos hc] at h
      cases hr : getUint32 b off with
      | none => rw [hr] at h; cases h
      | some sl =>
        rw [hr] at h
        dsimp only at h
        cases hr2 : getUint8 b (off + 4) with
        | none => rw [hr2] at h; cases h
        | some sn =>
          rw [hr2] at h
          dsimp only at h
          by_cases h3 : sn = 3
          · rw [if_pos h3] at h
            cases hr3 : getUint16 b (off + 12) with
            | none => rw [hr3] at h; cases h
            | some tmpl =>
              rw [hr3] at h
              dsimp only at h
              by_cases h0 : tmpl = 0
              · rw [if_pos h0] at h
                cases hg : readGrid b off with
                | none => rw [hg] at h; cases h
                | some g =>
                  rw [hg] at h
                  dsimp only at h
                  cases hi : innerLoop b g n (off + sl) with
                  | none => rw [hi] at h; exact ih _ _ h
                  | some out =>
                    rw [hi] at h
                    dsimp only at h
                    subst h
                    obtain ⟨o, l, hol⟩ := innerLoop_ok b g n _ pts hi
                    exact ⟨g, o, l, hol⟩
              · rw [if_neg h0] at h
                exact ih _ _ h
          · rw [if_neg h3] at h
            exact ih _ _ h
    · rw [if_neg hc] at h; cases h

theorem parseGrib2Data_box (b : Buffer) (fuel : ℕ)
    (pts : List RadarDataPoint) (h : parseGrib2Data b fuel = .ok pts) :
    ∀ p ∈ pts, inNorthAmericaBox p.lat p.lng := by
  intro p hp
  obtain ⟨g, o, l, rfl⟩ := outerLoop_ok b fuel 16 pts h
  exact readDataSection_box b g o l p hp

theorem hangBuf_stationary :
    ∀ fuel : ℕ, outerLoop hangBuf fuel 16 = .diverge := by
  intro fuel
  induction fuel with
  | zero => rfl
  | succ n ih =>
    rw [outerLoop]
    rw [if_pos (by norm_num [hangBuf])]
    rw [show getUint32 hangBuf 16 = some 0 from by decide]
    dsimp only
    rw [show getUint8 hangBuf 20 = some 0 from by decide]
    dsimp only
    rw [if_neg (by decide)]
    simpa using ih

theorem readGrid_bigBuf : readGrid bigBuf 16 = some gBig := by
  with_unfolding_all decide

theorem parse_bigBuf :
    parseGrib2Data bigBuf 2 = .ok (readDataSection bigBuf gBig 88 100405) := by
  with_unfolding_all rfl

theorem bigBuf_byte_hi (k : ℕ) : bigBuf.byte (93 + k * 2) = 0 := by
  simp only [bigBuf]
  rw [if_neg (by omega), if_neg (by omega), if_neg (by omega),
    if_neg (by omega)]

theorem bigBuf_byte_lo (k : ℕ) : bigBuf.byte (93 + k * 2 + 1) = 100 := by
  simp only [bigBuf]
  rw [if_neg (by omega), if_neg (by omega), if_neg (by omega),
    if_pos (by omega)]

theorem bigBuf_getUint16 (k : ℕ) (hk : k ≤ 50199) :
    getUint16 bigBuf (93 + k * 2) = some 100 := by
  unfold getUint16
  rw [if_pos (by simp only [bigBuf]; omega)]
  rw [bigBuf_byte_hi, bigBuf_byte_lo]

theorem rawToDbz_100 : rawToDbz 100 = 1 := by with_unfolding_all decide

theorem mathAbs_centi : mathAbs (1/100) = 1/100 := by with_unfolding_all decide

theorem bigBuf_emitAt_isSome (row col : ℕ) (hr : row < 200) (hc : col < 251) :
    (emitAt bigBuf gBig 93 row col).isSome := by
  have hrow : (row : ℚ) ≤ 199 := by exact_mod_cast Nat.lt_succ_iff.mp hr
  have hcol : (col : ℚ) ≤ 250 := by exact_mod_cast Nat.lt_succ_iff.mp hc
  have hrow0 : (0 : ℚ) ≤ (row : ℚ) := Nat.cast_nonneg row
  have hcol0 : (0 : ℚ) ≤ (col : ℚ) := Nat.cast_nonneg col
  unfold emitAt
  rw [show getUint16 bigBuf (93 + (row * gBig.ni + col) * 2) = some 100 from
    bigBuf_getUint16 (row * gBig.ni + col) (by simp only [gBig]; omega)]
  dsimp only
  rw [if_neg (by decide), rawToDbz_100, if_neg (by norm_num)]
  have hlat : computeLat gBig row = 55 - row * (1/100) := by
    unfold computeLat
    rw [if_pos (by norm_num [gBig])]
    simp only [gBig]
    rw [mathAbs_centi]
  have hlng : normalizeLng (computeLngRaw gBig col) = 230 + col * (1/100) - 360 := by
    unfold normalizeLng computeLngRaw
    rw [if_pos (by simp only [gBig]; nlinarith)]
    norm_num [gBig]
  rw [if_pos ?hbox]
  · rfl
  case hbox =>
    rw [hlat, hlng]
    refine ⟨by nlinarith, by nlinarith, by nlinarith, by nlinarith⟩

theorem bigBuf_colLoop_len (row : ℕ) (hr : row < 200) :
    (colLoop bigBuf gBig 93 50200 row (stepRange 251 1)).length = 251 := by
  rw [colLoop_length_of_forall_some]
  · rw [stepRange_one]; simp
  · intro col hcol
    have hc : col < 251 := mem_stepRange hcol
    refine ⟨by simp only [gBig]; push_cast; omega, bigBuf_emitAt_isSome row col hr hc⟩

theorem bigBuf_canonical : readDataSection bigBuf gBig 88 100405 =
    ((((stepRange 200 1).flatMap fun row =>
        colLoop bigBuf gBig 93 50200 row (stepRange 251 1)).filter
          fun pb => pb.2).map fun pb => pb.1) ++
      ((((stepRange 200 1).flatMap fun row =>
        colLoop bigBuf gBig 93 50200 row (stepRange 251 1)).filter
          fun pb => !pb.2).map fun pb => pb.1) := rfl

theorem bigBuf_points_len :
    (readDataSection bigBuf gBig 88 100405).length = 50200 := by
  rw [bigBuf_canonical, length_significant_append_background,
    List.length_flatMap]
  simp only [Function.comp_def]
  rw [List.map_congr_left fun row hrow =>
    bigBuf_colLoop_len row (mem_stepRange hrow)]
  rw [stepRange_one, List.map_const', List.length_range,
    List.sum_replicate, smul_eq_mul]

theorem scatterPoint_mem_sample (env : JsEnv) :
    scatterPoint env 0 ⟨39, -95, 45, 3⟩ 0 ∈ generateSampleData env := by
  unfold generateSampleData
  refine List.mem_append_left _ (List.mem_flatMap.mpr ⟨0, by simp [stormSystems], ?_⟩)
  have hs : stormSystems.getD 0 ⟨0, 0, 0, 0⟩ = ⟨39, -95, 45, 3⟩ := rfl
  rw [hs]
  unfold stormPoints
  exact List.mem_append_right _ (List.mem_map.mpr ⟨0, by simp, rfl⟩)

theorem generateSampleData_ne_nil (env : JsEnv) :
    generateSampleData env ≠ [] :=
  List.ne_nil_of_mem (scatterPoint_mem_sample env)

theorem stormSystems_bounds : ∀ s ∈ stormSystems,
    (59/2 : ℚ) ≤ s.centerLat ∧ s.centerLat ≤ 47 ∧
    (-122 : ℚ) ≤ s.centerLng ∧ s.centerLng ≤ -85 ∧
    (0 : ℚ) < s.size ∧ s.size ≤ 3 := by
  with_unfolding_all decide

theorem spiral_r_le (size : ℚ) (hs : 0 < size) (k : ℕ) (hk : k < rCount size) :
    (k : ℚ) * (3/20) ≤ size := by
  unfold rCount at hk
  have h0 : (0 : ℤ) ≤ ⌊size / (3/20)⌋ := Int.floor_nonneg.mpr (by positivity)
  have h1 : (k : ℤ) ≤ ⌊size / (3/20)⌋ := by omega
  have h2 : (k : ℚ) ≤ size / (3/20) := by exact_mod_cast Int.le_floor.mp h1
  rw [le_div_iff₀ (by norm_num)] at h2
  linarith

theorem spiralStep_bounds (env : JsEnv) (hv : ValidEnv env) (sIdx : ℕ)
    (s : Storm) (hs : s ∈ stormSystems) (k : ℕ) (hk : k < rCount s.size)
    (p : RadarDataPoint) (hp : p ∈ spiralStep env sIdx s k) :
    -90 ≤ p.lat ∧ p.lat ≤ 90 ∧ -180 ≤ p.lng ∧ p.lng ≤ 180 := by
  obtain ⟨hclat1, hclat2, hclng1, hclng2, hsz1, hsz2⟩ := stormSystems_bounds s hs
  obtain ⟨i, _, heq⟩ := List.mem_filterMap.mp hp
  dsimp only at heq
  split_ifs at heq
  injection heq with heq
  have hr0 : (0 : ℚ) ≤ (k : ℚ) * (3/20) := by positivity
  have hrs : (k : ℚ) * (3/20) ≤ 3 := le_trans (spiral_r_le s.size hsz1 k hk) hsz2
  obtain ⟨hc1, hc2⟩ := abs_le.mp (hv.cos_le (((i : ℚ) / (max 8 (⌊(k : ℚ) * (3/20) * 12⌋).toNat : ℕ)) * 2 * mathPi + (k : ℚ) * (3/20) * (1/2)))
  obtain ⟨hc3, hc4⟩ := abs_le.mp (hv.sin_le (((i : ℚ) / (max 8 (⌊(k : ℚ) * (3/20) * 12⌋).toNat : ℕ)) * 2 * mathPi + (k : ℚ) * (3/20) * (1/2)))
  obtain ⟨ho1, ho2⟩ := hv.offLat_mem sIdx k i
  obtain ⟨ho3, ho4⟩ := hv.offLng_mem sIdx k i
  rw [show p = _ from heq.symm]
  refine ⟨?_, ?_, ?_, ?_⟩ <;> dsimp only <;> nlinarith

theorem scatterPoint_bounds (env : JsEnv) (hv : ValidEnv env) (sIdx : ℕ)
    (s : Storm) (hs : s ∈ stormSystems) (i : ℕ) :
    -90 ≤ (scatterPoint env sIdx s i).lat ∧ (scatterPoint env sIdx s i).lat ≤ 90 ∧
    -180 ≤ (scatterPoint env sIdx s i).lng ∧ (scatterPoint env sIdx s i).lng ≤ 180 := by
  obtain ⟨hclat1, hclat2, hclng1, hclng2, hsz1, hsz2⟩ := stormSystems_bounds s hs
  obtain ⟨hc1, hc2⟩ := abs_le.mp (hv.cos_le (env.scatAngleR sIdx i * 2 * mathPi))
  obtain ⟨hc3, hc4⟩ := abs_le.mp (hv.sin_le (env.scatAngleR sIdx i * 2 * mathPi))
  obtain ⟨hd1, hd2⟩ := hv.scatDist_mem sIdx i
  unfold scatterPoint
  refine ⟨?_, ?_, ?_, ?_⟩ <;> dsimp only <;> nlinarith

theorem backgroundPoints_bounds (env : JsEnv) (hv : ValidEnv env)
    (p : RadarDataPoint) (hp : p ∈ backgroundPoints env) :
    -90 ≤ p.lat ∧ p.lat ≤ 90 ∧ -180 ≤ p.lng ∧ p.lng ≤ 180 := by
  obtain ⟨i, _, heq⟩ := List.mem_filterMap.mp hp
  dsimp only at heq
  split_ifs at heq
  injection heq with heq
  obtain ⟨h1, h2⟩ := hv.bgLat_mem i
  obtain ⟨h3, h4⟩ := hv.bgLng_mem i
  rw [show p = _ from heq.symm]
  refine ⟨?_, ?_, ?_, ?_⟩ <;> dsimp only <;> nlinarith

theorem generateSampleData_bounds (env : JsEnv) (hv : ValidEnv env)
    (p : RadarDataPoint) (hp : p ∈ generateSampleData env) :
    -90 ≤ p.lat ∧ p.lat ≤ 90 ∧ -180 ≤ p.lng ∧ p.lng ≤ 180 := by
  unfold generateSampleData at hp
  rcases List.mem_append.mp hp with h | h
  · obtain ⟨sIdx, hsIdx, hmem⟩ := List.mem_flatMap.mp h
    have hlen : sIdx < stormSystems.length := List.mem_range.mp hsIdx
    have hsmem : stormSystems.getD sIdx ⟨0, 0, 0, 0⟩ ∈ stormSystems := by
      rw [List.getD_eq_getElem stormSystems ⟨0, 0, 0, 0⟩ hlen]
      exact List.getElem_mem hlen
    unfold stormPoints at hmem
    rcases List.mem_append.mp hmem with h2 | h2
    · obtain ⟨k, hk, hmem2⟩ := List.mem_flatMap.mp h2
      exact spiralStep_bounds env hv sIdx _ hsmem k (List.mem_range.mp hk) p hmem2
    · obtain ⟨i, _, heq⟩ := List.mem_map.mp h2
      rw [show p = _ from heq.symm]
      exact scatterPoint_bounds env hv sIdx _ hsmem i
  · exact backgroundPoints_bounds env hv p h

theorem validEnv_env0 : ValidEnv env0 := by
  constructor <;> intros <;> norm_num [env0]

theorem parse_goodBuf : parseGrib2Data goodBuf 2 = .ok [⟨55, -130, 1⟩] := by
  with_unfolding_all decide

/-- C1. The claim says `processGribBuffer` converts every internal error into
the synthetic fallback so that the caller always receives a point collection.
On `hangBuf` — a GRIB-tagged buffer whose first walked section has length
field 0 — the section walk never advances, so for every fuel the call never
returns: the caller receives nothing at all, contradicting the claim. -/
theorem processGribBuffer_never_returns_on_hangBuf :
    ∀ (env : JsEnv) (fuel : ℕ), processGribBuffer env hangBuf fuel = none := by
  intro env fuel
  unfold processGribBuffer
  rw [show unwrapGzip env hangBuf = some hangBuf from by
    unfold unwrapGzip; rw [if_neg (by decide)]]
  dsimp only
  rw [if_pos (by decide)]
  have hd : parseGrib2Data hangBuf fuel = POut.diverge := hangBuf_stationary fuel
  rw [hd]

theorem sectionWalk_zero_length_diverges :
    (∀ fuel : ℕ, parseGrib2Data hangBuf fuel = POut.diverge) ∧
    parseGrib2Data overshootBuf 2 = POut.fail false := by
  exact ⟨fun fuel => hangBuf_stationary fuel, by with_unfolding_all decide⟩

/-- C2 counterexample. On the non-GRIB buffer `"NOPE"` the decoder returns the
bare synthetic point list itself — the same unmarked value the error path
returns — with no `isSyntheticFallback` field anywhere in the result, so no
provenance flag reaches the caller. -/
theorem nonGrib_result_is_bare_sample_list :
    processGribBuffer env0 nopeBuf 1 = some (generateSampleData env0) ∧
    processGribBuffer env0 overshootBuf 2 = some (generateSampleData env0) := by
  exact ⟨by with_unfolding_all rfl, by with_unfolding_all rfl⟩

/-- C2 amended. Whenever the buffer left after gzip unwrapping does not start
with `"GRIB"`, `processGribBuffer` returns exactly the synthetic sample list,
which is never empty; the result carries no provenance flag. -/
theorem nonGrib_input_yields_sample_data :
    ∀ (env : JsEnv) (b : Buffer) (fuel : ℕ),
    (∀ b2, unwrapGzip env b = some b2 → ¬ hasGribMagic b2) →
    processGribBuffer env b fuel = some (generateSampleData env) ∧
    generateSampleData env ≠ [] := by
  intro env b fuel h
  refine ⟨?_, generateSampleData_ne_nil env⟩
  unfold processGribBuffer
  cases hu : unwrapGzip env b with
  | none => rfl
  | some b2 =>
    dsimp only
    rw [if_neg (h b2 hu)]

theorem nonGrib_input_yields_sample_data_witness :
    processGribBuffer env0 nopeBuf 1 = some (generateSampleData env0) ∧
    generateSampleData env0 ≠ [] := by
  refine nonGrib_input_yields_sample_data env0 nopeBuf 1 ?_
  intro b2 hb2
  rw [show unwrapGzip env0 nopeBuf = some nopeBuf from by
    unfold unwrapGzip; rw [if_neg (by decide)]] at hb2
  injection hb2 with hb2
  subst hb2
  decide

/-- C3. On `bigBuf` — a 251 × 200 grid whose every sampled cell passes every
filter — the primary decoder returns 50,200 points: the 50,000-point limit is
logged but never enforced (no `break` follows the limit check), so the
configured budget is exceeded. -/
theorem parseGrib2Data_exceeds_budget :
    (parseGrib2Data bigBuf 2).points.length = 50200 ∧
    50000 < (parseGrib2Data bigBuf 2).points.length := by
  have h : (parseGrib2Data bigBuf 2).points.length = 50200 := by
    rw [parse_bigBuf]
    exact bigBuf_points_len
  exact ⟨h, by omega⟩

/-- C5 counterexample. On `zeroDimBuf`, whose grid definition declares
`ni = nj = 0`, the decoder succeeds with an *empty* real-data result rather
than failing over to the (never empty) synthetic fallback. -/
theorem zeroDim_returns_empty_real_result :
    parseGrib2Data zeroDimBuf 2 = POut.ok [] ∧
    processGribBuffer env0 zeroDimBuf 2 = some [] ∧
    generateSampleData env0 ≠ [] := by
  exact ⟨by with_unfolding_all decide, by with_unfolding_all decide,
    generateSampleData_ne_nil env0⟩

/-- C5 amended. Only the unused helper `extractRadarDataPoints` rejects a
zero grid dimension (by throwing `Invalid grid dimensions`); the live parse
path accepts it and returns an empty successful result. -/
theorem zeroDim_rejected_only_in_extract :
    (∀ gribData : GribData,
      gribData.header.nx = 0 ∨ gribData.header.ny = 0 →
      extractRadarDataPoints gribData = .error "Invalid grid dimensions") ∧
    parseGrib2Data zeroDimBuf 2 = POut.ok [] := by
  constructor
  · intro gribData h
    unfold extractRadarDataPoints
    rw [if_pos h]
  · with_unfolding_all decide

theorem zeroDim_rejected_only_in_extract_witness :
    extractRadarDataPoints ⟨⟨0, 5, 0, 0, 0, 0⟩, []⟩ =
      .error "Invalid grid dimensions" :=
  zeroDim_rejected_only_in_extract.1 ⟨⟨0, 5, 0, 0, 0, 0⟩, []⟩ (Or.inl rfl)

set_option maxRecDepth 4000 in
/-- C6 counterexample. The part_002 variant filters neither values nor
coordinates: on `ce6Buf`, whose encoded first latitude is 100°, it emits
points whose latitude exceeds 90°. -/
theorem part002_emits_invalid_latitude :
    ¬ ∀ p ∈ (parseGrib2Data2 ce6Buf 2).points,
      -90 ≤ p.lat ∧ p.lat ≤ 90 ∧ -180 ≤ p.lng ∧ p.lng ≤ 180 := by
  with_unfolding_all decide

/-- C6 amended. In the primary variant every emitted point has globally valid
coordinates: the real path keeps only points inside the North America box
(which is contained in the valid ranges), and every synthetic fallback point
is valid for any oracles within the ranges JS guarantees for `Math.random`,
`Math.cos` and `Math.sin`. The part_002 variant enforces no such bound. -/
theorem decode_coordinates_globally_valid :
    (∀ (b : Buffer) (fuel : ℕ) (pts : List RadarDataPoint),
      parseGrib2Data b fuel = POut.ok pts →
      ∀ p ∈ pts, -90 ≤ p.lat ∧ p.lat ≤ 90 ∧ -180 ≤ p.lng ∧ p.lng ≤ 180) ∧
    (∀ env : JsEnv, ValidEnv env →
      ∀ p ∈ generateSampleData env,
      -90 ≤ p.lat ∧ p.lat ≤ 90 ∧ -180 ≤ p.lng ∧ p.lng ≤ 180) := by
  constructor
  · intro b fuel pts h p hp
    obtain ⟨h1, h2, h3, h4⟩ := parseGrib2Data_box b fuel pts h p hp
    exact ⟨by linarith, by linarith, by linarith, by linarith⟩
  · exact generateSampleData_bounds

theorem decode_coordinates_globally_valid_witness :
    ((-90 : ℚ) ≤ 55 ∧ (55 : ℚ) ≤ 90 ∧ (-180 : ℚ) ≤ -130 ∧ (-130 : ℚ) ≤ 180) ∧
    (-90 ≤ (scatterPoint env0 0 ⟨39, -95, 45, 3⟩ 0).lat ∧
      (scatterPoint env0 0 ⟨39, -95, 45, 3⟩ 0).lat ≤ 90 ∧
      -180 ≤ (scatterPoint env0 0 ⟨39, -95, 45, 3⟩ 0).lng ∧
      (scatterPoint env0 0 ⟨39, -95, 45, 3⟩ 0).lng ≤ 180) :=
  ⟨decode_coordinates_globally_valid.1 goodBuf 2 [⟨55, -130, 1⟩] parse_goodBuf
      ⟨55, -130, 1⟩ (by simp),
    decode_coordinates_globally_valid.2 env0 validEnv_env0 _
      (scatterPoint_mem_sample env0)⟩

/-- C7. The sample-to-dBZ conversion is exactly the three-branch rule with
thresholds 32000 and 3200: the four table rows of the spec hold, and every
point the data loop emits carries the value `rawToDbz raw` of a raw code
that passed the missing-code filter. -/
theorem rawToDbz_three_branch_rule :
    rawToDbz 100 = 1 ∧ rawToDbz 3300 = 1 ∧
    rawToDbz 33000 = -6507/20 ∧ rawToDbz 65000 = -107/20 ∧
    (∀ raw : ℕ, 32000 < raw → rawToDbz raw = ((raw : ℚ) - 65535) / 100) ∧
    (∀ raw : ℕ, 3200 < raw → raw ≤ 32000 → rawToDbz raw = (raw : ℚ) / 100 - 32) ∧
    (∀ raw : ℕ, raw ≤ 3200 → rawToDbz raw = (raw : ℚ) / 100) ∧
    (∀ (b : Buffer) (g : Grid) (ds row col : ℕ) (p : RadarDataPoint) (s : Bool),
      emitAt b g ds row col = some (p, s) →
      ∃ raw, getUint16 b (ds + (row * g.ni + col) * 2) = some raw ∧
        ¬(raw = 0 ∨ raw = 65535 ∨ raw = 32767) ∧ p.value = rawToDbz raw) := by
  refine ⟨by norm_num [rawToDbz], by norm_num [rawToDbz],
    by norm_num [rawToDbz], by norm_num [rawToDbz], ?_, ?_, ?_, ?_⟩
  · intro raw h
    unfold rawToDbz
    rw [if_pos (by omega)]
  · intro raw h1 h2
    unfold rawToDbz
    rw [if_neg (by omega), if_pos (by omega)]
  · intro raw h
    unfold rawToDbz
    rw [if_neg (by omega), if_neg (by omega)]
  · intro b g ds row col p s h
    unfold emitAt at h
    cases hr : getUint16 b (ds + (row * g.ni + col) * 2) with
    | none => rw [hr] at h; cases h
    | some raw =>
      rw [hr] at h
      dsimp only at h
      by_cases h1 : raw = 0 ∨ raw = 65535 ∨ raw = 32767
      · rw [if_pos h1] at h; cases h
      · rw [if_neg h1] at h
        by_cases h2 : rawToDbz raw < -30 ∨ rawToDbz raw > 100
        · rw [if_pos h2] at h; cases h
        · rw [if_neg h2] at h
          by_cases h3 : inNorthAmericaBox (computeLat g row)
              (normalizeLng (computeLngRaw g col))
          · rw [if_pos h3] at h
            injection h with h4
            injection h4 with h5 h6
            exact ⟨raw, rfl, h1, by rw [show p = _ from h5.symm]⟩
          · rw [if_neg h3] at h; cases h

theorem rawToDbz_three_branch_rule_witness :
    ∃ raw, getUint16 goodBuf (93 + (0 * gGood.ni + 0) * 2) = some raw ∧
      ¬(raw = 0 ∨ raw = 65535 ∨ raw = 32767) ∧
      (⟨55, -130, 1⟩ : RadarDataPoint).value = rawToDbz raw :=
  rawToDbz_three_branch_rule.2.2.2.2.2.2.2 goodBuf gGood 93 0 0
    ⟨55, -130, 1⟩ true (by with_unfolding_all decide)

/-- C8. With `la1 = 55`, `lo1 = 230`, both increments `0.01` and a
north-to-south grid, the mapper sends row 100 to latitude 54 and column 200
to longitude −128; in general `normalizeLng` subtracts 360 exactly once from
any longitude above 180 and leaves every other longitude unchanged. -/
theorem coordinate_mapper_rule :
    computeLat ⟨251, 200, 55, 230, 20, 230, 1/100, 1/100⟩ 100 = 54 ∧
    normalizeLng (computeLngRaw ⟨251, 200, 55, 230, 20, 230, 1/100, 1/100⟩ 200) = -128 ∧
    (∀ lng : ℚ, 180 < lng → normalizeLng lng = lng - 360) ∧
    (∀ lng : ℚ, lng ≤ 180 → normalizeLng lng = lng) := by
  refine ⟨?_, ?_, ?_, ?_⟩
  · unfold computeLat
    rw [if_pos (by norm_num)]
    rw [show mathAbs ((⟨251, 200, 55, 230, 20, 230, 1/100, 1/100⟩ : Grid).dj)
      = 1/100 from mathAbs_centi]
    norm_num
  · unfold computeLngRaw normalizeLng
    rw [if_pos (by norm_num)]
    norm_num
  · intro lng h
    unfold normalizeLng
    rw [if_pos h]
  · intro lng h
    unfold normalizeLng
    rw [if_neg (by linarith)]

theorem coordinate_mapper_rule_witness :
    (180 : ℚ) < 232 ∧ normalizeLng 232 = 232 - 360 :=
  ⟨by norm_num, coordinate_mapper_rule.2.2.1 232 (by norm_num)⟩

/-- C9. In both decoder variants, a raw sample equal to one of the reserved
codes 0, 32767, 65535 is skipped before unit conversion: the cell emits no
point. -/
theorem reserved_codes_never_emitted :
    (∀ (b : Buffer) (g : Grid) (ds row col raw : ℕ),
      getUint16 b (ds + (row * g.ni + col) * 2) = some raw →
      raw = 0 ∨ raw = 32767 ∨ raw = 65535 →
      emitAt b g ds row col = none) ∧
    (∀ (b : Buffer) (g : Grid2) (ds row col raw : ℕ),
      getUint16 b (ds + (row * g.ni + col) * 2) = some raw →
      raw = 0 ∨ raw = 32767 ∨ raw = 65535 →
      emitAt2 b g ds row col = none) := by
  constructor
  · intro b g ds row col raw hr hres
    unfold emitAt
    rw [hr]
    dsimp only
    rw [if_pos (by tauto)]
  · intro b g ds row col raw hr hres
    unfold emitAt2
    rw [hr]
    dsimp only
    rw [if_pos (by tauto)]

theorem reserved_codes_never_emitted_witness :
    emitAt resBuf gGood 0 0 0 = none ∧ emitAt2 resBuf g2res 0 0 0 = none :=
  ⟨reserved_codes_never_emitted.1 resBuf gGood 0 0 0 32767 (by decide)
      (Or.inr (Or.inl rfl)),
    reserved_codes_never_emitted.2 resBuf g2res 0 0 0 32767 (by decide)
      (Or.inr (Or.inl rfl))⟩

/-- C10. Every point returned by the real-decode path of the primary variant lies
in the North America box `15 ≤ lat ≤ 70`, `−170 ≤ lng ≤ −50`, and any cell
whose mapped coordinates fall outside that box emits nothing — it is
dropped, not clamped. -/
theorem primary_points_in_north_america_box :
    (∀ (b : Buffer) (fuel : ℕ) (pts : List RadarDataPoint),
      parseGrib2Data b fuel = POut.ok pts →
      ∀ p ∈ pts, 15 ≤ p.lat ∧ p.lat ≤ 70 ∧ -170 ≤ p.lng ∧ p.lng ≤ -50) ∧
    (∀ (b : Buffer) (g : Grid) (ds row col : ℕ),
      ¬ inNorthAmericaBox (computeLat g row) (normalizeLng (computeLngRaw g col)) →
      emitAt b g ds row col = none) := by
  exact ⟨fun b fuel pts h p hp => parseGrib2Data_box b fuel pts h p hp,
    fun b g ds row col h => emitAt_none_of_not_box b g ds row col h⟩

theorem primary_points_in_north_america_box_witness :
    ((15 : ℚ) ≤ 55 ∧ (55 : ℚ) ≤ 70 ∧ (-170 : ℚ) ≤ -130 ∧ (-130 : ℚ) ≤ -50) ∧
    emitAt goodBuf gHigh 93 0 0 = none :=
  ⟨primary_points_in_north_america_box.1 goodBuf 2 [⟨55, -130, 1⟩]
      parse_goodBuf ⟨55, -130, 1⟩ (by simp),
    primary_points_in_north_america_box.2 goodBuf gHigh 93 0 0
      (by with_unfolding_all decide)⟩
